import Mathlib

/-!
Verification of the AI-Powered Professional IT Invoice Generator.

Shallow embedding of the prediction-with-fallback core:
 - `ITInvoicePredictor` (train_it_model.py): `predict`, `prepare_features_for_prediction`,
   `get_smart_defaults` (source name `_get_smart_defaults`), `save_models` / `load_models`.
 - `SimpleInvoicePredictor` (it_invoice_app.py): the UI-facing rule-based `predict`.
 - `ProfessionalITInvoiceGenerator.calculate_project_totals` (it_invoice_app.py).
 - the payment-terms rule of `generate_it_invoice_data` (create_it_dataset.py).

Numeric values are rationals; Python exceptions inside `predict` are modelled by a
`Runtime` record that records, for each effectful step of the source, whether it
succeeds and with which value (estimators are functions returning `Option`, where
`none` models the estimator raising).
-/

/-- Suggestion bundle: the dictionary every path of `predict` returns
(train_it_model.py lines 173-179, 215-221; it_invoice_app.py lines 66-72). -/
structure Bundle where
  discount : ℚ
  tax_rate : ℚ
  documentation_complexity : String
  payment_terms : String
  service_notes : String
  deriving DecidableEq, Repr

attribute [local semireducible] Rat.inv Rat.add Rat.sub Rat.mul Rat.ofScientific

/-- Round half to even (Python `round` tie-breaking) of a rational to an integer. -/
def rhe (q : ℚ) : ℤ :=
  if q - ⌊q⌋ < 1/2 then ⌊q⌋
  else if 1/2 < q - ⌊q⌋ then ⌊q⌋ + 1
  else if ⌊q⌋ % 2 = 0 then ⌊q⌋ else ⌊q⌋ + 1

/-- Python `round(x, 2)`: round to two decimal places, ties to even. -/
def round2 (q : ℚ) : ℚ := (rhe (q * 100) : ℚ) / 100

/-- Python `max(lo, min(hi, q))` as used for the business-bound clamps
(train_it_model.py lines 142-143). -/
def clampQ (lo hi q : ℚ) : ℚ := max lo (min hi q)

/-- Digits of a reversed decimal-digit list with a comma inserted after every
third digit, as Python's `{:,}` grouping does. -/
def commaRev : List Char → ℕ → List Char
  | [], _ => []
  | c :: cs, k =>
    if k % 3 = 0 ∧ k ≠ 0 then ',' :: c :: commaRev cs (k + 1)
    else c :: commaRev cs (k + 1)

/-- Python `{:,.2f}` formatting of a numeric amount: sign, thousands-grouped
integer part, a dot, and exactly two decimal digits. -/
def formatAmount (q : ℚ) : String :=
  let c : ℤ := rhe (q * 100)
  let sign := if c < 0 then "-" else ""
  let n := c.natAbs
  let intPart := n / 100
  let cents := n % 100
  let intStr := String.mk ((commaRev (toString intPart).toList.reverse 0).reverse)
  let centsStr := (if cents < 10 then "0" else "") ++ toString cents
  sign ++ intStr ++ "." ++ centsStr

namespace ITInvoicePredictor

/-- The `payment_terms_map` dictionary with its `.get(project_type, 'Net 30')`
default (train_it_model.py lines 157-163 and, identically, 204-210). -/
def payment_terms_map (project_type : String) : String :=
  if project_type = "Fixed Price" then "50% Advance, 50% on Completion"
  else if project_type = "Time & Materials" then "Net 30"
  else if project_type = "Retainer" then "Monthly in Advance"
  else if project_type = "Support Contract" then "Quarterly in Advance"
  else "Net 30"

/-- The `service_notes_map` dictionary with its generic default
(train_it_model.py lines 165-171). -/
def service_notes_map (service_category : String) : String :=
  if service_category = "Software Development" then
    "Includes code documentation, testing, and deployment support."
  else if service_category = "Cloud Services" then
    "Includes architecture design, security configuration, and monitoring."
  else if service_category = "Cybersecurity" then
    "Includes security assessment, vulnerability scanning, and compliance reports."
  else if service_category = "IT Consulting" then
    "Comprehensive analysis, strategy recommendations, and implementation guidance."
  else "Professional IT services delivered to industry standards."

/-- The smart-discount tiers of `_get_smart_defaults`
(train_it_model.py lines 184-190). -/
def smart_default_discount (total_amount : ℚ) : ℚ :=
  if total_amount > 20000 then 10
  else if total_amount > 10000 then 5
  else if total_amount > 5000 then 2
  else 0

/-- The documentation-complexity tiers of `_get_smart_defaults`
(train_it_model.py lines 196-201). -/
def smart_default_doc_complexity (total_amount : ℚ) : String :=
  if total_amount > 15000 then "High"
  else if total_amount > 5000 then "Medium"
  else "Low"

/-- `_get_smart_defaults` (train_it_model.py lines 181-221): the rule-based
default bundle used on every failure path of `predict`. -/
def get_smart_defaults (service_category client_industry project_type : String)
    (total_amount : ℚ) : Bundle :=
  { discount := smart_default_discount total_amount
    tax_rate := 8.5
    documentation_complexity := smart_default_doc_complexity total_amount
    payment_terms := payment_terms_map project_type
    service_notes := "Professional " ++ service_category ++ " services for " ++
      client_industry ++ " sector. Total project value: $" ++ formatAmount total_amount }

/-- The seven scalar inputs of `predict` (train_it_model.py lines 111-112). -/
structure PredictInput where
  service_category : String
  client_industry : String
  country : String
  project_type : String
  total_amount : ℚ
  total_hours : ℚ
  num_services : ℕ
  deriving DecidableEq

/-- The feature row returned by `prepare_features_for_prediction`, in the
`required_cols` order (train_it_model.py lines 58-60). -/
structure FeatureVec where
  service_category : ℤ
  client_industry : ℤ
  country : ℤ
  project_type : ℤ
  total_amount : ℚ
  total_hours : ℚ
  num_services : ℕ
  amount_per_hour : ℚ
  is_large_project : ℤ
  is_enterprise_client : ℤ
  deriving DecidableEq

/-- The fitted `self.encoders` dictionary: an optional category-to-code map per
categorical column (train_it_model.py lines 15, 83-86). A map returns `none`
on a value it was not fitted on (sklearn raises `ValueError` there). -/
structure Encoders where
  service_category : Option (String → Option ℤ)
  client_industry : Option (String → Option ℤ)
  country : Option (String → Option ℤ)
  project_type : Option (String → Option ℤ)

/-- Encoding of one categorical column (train_it_model.py lines 40-50):
if an encoder for the column exists, transform the value, with the
`ValueError` fallback to code 0 for an unseen category; with no encoder the
column defaults to 0. -/
def encodeCol (enc : Option (String → Option ℤ)) (v : String) : ℤ :=
  match enc with
  | some m => (m v).getD 0
  | none => 0

/-- `prepare_features_for_prediction` (train_it_model.py lines 31-66): encode
the four categorical columns and compute the three derived features. In the
typed embedding the body is total; the blanket `except` of the source is
modelled by the `prep_fails` flag of `Runtime`. -/
def prepare_features_for_prediction (enc : Encoders) (i : PredictInput) : FeatureVec :=
  { service_category := encodeCol enc.service_category i.service_category
    client_industry := encodeCol enc.client_industry i.client_industry
    country := encodeCol enc.country i.country
    project_type := encodeCol enc.project_type i.project_type
    total_amount := i.total_amount
    total_hours := i.total_hours
    num_services := i.num_services
    amount_per_hour := i.total_amount / max i.total_hours 1
    is_large_project := if i.total_amount > 20000 then 1 else 0
    is_enterprise_client :=
      if i.client_industry = "Finance" ∨ i.client_industry = "Healthcare" then 1 else 0 }

/-- Runtime configuration of one `predict` call: the predictor's state after
the step-1 load attempt together with the outcome of each effectful step.
`models_loaded` is the flag on entry; `load_ok` is the result of the
`load_models()` call (including its retrain fallback); `prep_fails` models the
blanket `except` inside `prepare_features_for_prediction` firing; each
estimator is a function whose `none` result models the estimator raising. -/
structure Runtime where
  models_loaded : Bool
  load_ok : Bool
  prep_fails : Bool
  discount_model : FeatureVec → Option ℚ
  tax_model : FeatureVec → Option ℚ
  docs_model : FeatureVec → Option ℤ
  encoders : Encoders

/-- `ITInvoicePredictor.predict` (train_it_model.py lines 111-179): if no
models are loaded and loading fails, return smart defaults; otherwise prepare
features (`None` on failure routes to defaults), run the three estimators
(an exception routes to defaults), clamp discount to [0,20] and tax to
[0,25], round both to 2 decimals, map the docs flag to High/Medium, and fill
payment terms and service notes from the fixed lookups. -/
def predict (rt : Runtime) (i : PredictInput) : Bundle :=
  if !rt.models_loaded && !rt.load_ok then
    get_smart_defaults i.service_category i.client_industry i.project_type i.total_amount
  else
    match (if rt.prep_fails then none
           else some (prepare_features_for_prediction rt.encoders i)) with
    | none =>
      get_smart_defaults i.service_category i.client_industry i.project_type i.total_amount
    | some x =>
      match rt.discount_model x, rt.tax_model x, rt.docs_model x with
      | some d, some t, some needs_detailed_docs =>
        { discount := round2 (clampQ 0 20 d)
          tax_rate := round2 (clampQ 0 25 t)
          documentation_complexity := if needs_detailed_docs ≠ 0 then "High" else "Medium"
          payment_terms := payment_terms_map i.project_type
          service_notes := service_notes_map i.service_category }
      | _, _, _ =>
        get_smart_defaults i.service_category i.client_industry i.project_type i.total_amount

/-- The model artifact bundle persisted by `save_models` and consumed by
`load_models` (train_it_model.py lines 249-254, 226-230). -/
structure ModelData where
  discount_model : FeatureVec → Option ℚ
  tax_model : FeatureVec → Option ℚ
  docs_model : FeatureVec → Option ℤ
  encoders : Encoders

/-- The persistent artifact location: filename to optional artifact. The
joblib dump/load mechanics are opaque per the source; persistence is modelled
as a keyed store of the saved bundle. -/
def ArtifactStore := String → Option ModelData

/-- Predictor instance state relevant to prediction: the loaded flag, the
three estimators and the encoders (train_it_model.py lines 12, 95-103,
227-231). -/
structure PredictorState where
  models_loaded : Bool
  discount_model : FeatureVec → Option ℚ
  tax_model : FeatureVec → Option ℚ
  docs_model : FeatureVec → Option ℤ
  encoders : Encoders

/-- `save_models` on a trained predictor (train_it_model.py lines 248-257):
write the four-field `model_data` bundle to the store under `filename`. -/
def save_models (p : PredictorState) (store : ArtifactStore) (filename : String) :
    ArtifactStore :=
  fun f =>
    if f = filename then
      some { discount_model := p.discount_model
             tax_model := p.tax_model
             docs_model := p.docs_model
             encoders := p.encoders }
    else store f

/-- The successful-load body of `load_models` (train_it_model.py lines
226-232): install the artifact's estimators and encoders and set the flag. -/
def load_models_from (md : ModelData) (p : PredictorState) : PredictorState :=
  { models_loaded := true
    discount_model := md.discount_model
    tax_model := md.tax_model
    docs_model := md.docs_model
    encoders := md.encoders }

/-- Runtime of a `predict` call made on a given predictor state, with the
given outcomes for the load attempt and feature preparation. -/
def runtime (p : PredictorState) (load_ok prep_fails : Bool) : Runtime :=
  { models_loaded := p.models_loaded
    load_ok := load_ok
    prep_fails := prep_fails
    discount_model := p.discount_model
    tax_model := p.tax_model
    docs_model := p.docs_model
    encoders := p.encoders }

end ITInvoicePredictor

namespace SimpleInvoicePredictor

/-- The discount rule of the UI-facing `SimpleInvoicePredictor.predict`
(it_invoice_app.py line 33). -/
def simple_default_discount (total_amount : ℚ) : ℚ :=
  if total_amount > 10000 then 5
  else if total_amount > 5000 then 3
  else 0

/-- The documentation-complexity rule of the UI-facing predictor
(it_invoice_app.py lines 37-42). -/
def simple_doc_complexity (total_amount : ℚ) : String :=
  if total_amount > 15000 then "High"
  else if total_amount > 5000 then "Medium"
  else "Low"

/-- The `payment_terms_map` of the UI-facing predictor with its `.get`
default (it_invoice_app.py lines 45-51). -/
def app_payment_terms_map (project_type : String) : String :=
  if project_type = "Fixed Price" then "50% Advance, 50% on Completion"
  else if project_type = "Time & Materials" then "Net 30"
  else if project_type = "Retainer" then "Monthly in Advance"
  else if project_type = "Support Contract" then "Quarterly in Advance"
  else "Net 30"

/-- The `service_notes_map` of the UI-facing predictor with its generic
default (it_invoice_app.py lines 54-64). -/
def app_service_notes_map (service_category : String) : String :=
  if service_category = "Software Development" then
    "Includes code documentation, testing, and deployment support."
  else if service_category = "Cloud Services" then
    "Includes architecture design and security configuration."
  else if service_category = "Cybersecurity" then
    "Includes security assessment and compliance documentation."
  else if service_category = "IT Consulting" then
    "Professional consulting services with detailed reports."
  else if service_category = "System Integration" then
    "Includes system design and integration testing."
  else if service_category = "Data Analytics" then
    "Includes data analysis and visualization reports."
  else if service_category = "DevOps Services" then
    "Includes CI/CD pipeline setup and automation."
  else if service_category = "AI/ML Solutions" then
    "Includes model development and implementation."
  else "Professional IT services delivered to industry standards."

/-- `SimpleInvoicePredictor.predict` (it_invoice_app.py lines 29-72): purely
rule-based bundle. The `models_loaded` flag set by `load_models` is a field
of the object but is never read by the body; it is kept as a parameter to
state that independence. The typed body is total, so the ultimate-fallback
`except` branch (lines 73-81) is unreachable in the embedding. -/
def predict (models_loaded : Bool)
    (service_category client_industry country project_type : String)
    (total_amount total_hours : ℚ) (num_services : ℕ) : Bundle :=
  { discount := simple_default_discount total_amount
    tax_rate := 8.5
    documentation_complexity := simple_doc_complexity total_amount
    payment_terms := app_payment_terms_map project_type
    service_notes := app_service_notes_map service_category }

end SimpleInvoicePredictor

namespace ProfessionalITInvoiceGenerator

/-- One service line item, fields `hours` and `hourly_rate`
(it_invoice_app.py line 156). -/
structure Service where
  hours : ℚ
  hourly_rate : ℚ
  deriving DecidableEq

/-- The totals dictionary (it_invoice_app.py lines 163-169). -/
structure Totals where
  subtotal : ℚ
  discount_amount : ℚ
  tax_amount : ℚ
  total : ℚ
  total_hours : ℚ
  deriving DecidableEq

/-- `calculate_project_totals` (it_invoice_app.py lines 153-169): subtotal,
discount amount, tax on the discounted amount, grand total and total hours. -/
def calculate_project_totals (services : List Service) (discount tax_rate : ℚ) : Totals :=
  let subtotal := (services.map fun s => s.hours * s.hourly_rate).sum
  let discount_amount := subtotal * (discount / 100)
  let taxable_amount := subtotal - discount_amount
  let tax_amount := taxable_amount * (tax_rate / 100)
  { subtotal := subtotal
    discount_amount := discount_amount
    tax_amount := tax_amount
    total := taxable_amount + tax_amount
    total_hours := (services.map Service.hours).sum }

end ProfessionalITInvoiceGenerator

namespace createItDataset

/-- The payment-terms rule of the Dataset Synthesizer
(create_it_dataset.py lines 100-105): default Net 30, Fixed Price pays half
in advance, Support Contract pays monthly in advance. -/
def dataset_payment_terms (project_type : String) : String :=
  if project_type = "Fixed Price" then "50% Advance, 50% on Completion"
  else if project_type = "Support Contract" then "Monthly in Advance"
  else "Net 30"

end createItDataset

/-- The three documentation-complexity levels of the data model. -/
def docLevels : List String := ["Low", "Medium", "High"]

/-- The four known payment-terms values, as listed in the UI options
(it_invoice_app.py line 510) and produced by the lookup tables. -/
def knownPaymentTerms : List String :=
  ["50% Advance, 50% on Completion", "Net 30", "Monthly in Advance", "Quarterly in Advance"]

/-- The four known project types (it_invoice_app.py lines 391-393,
create_it_dataset.py line 18). -/
def knownProjectTypes : List String :=
  ["Fixed Price", "Time & Materials", "Retainer", "Support Contract"]

/-- A fully populated, in-range suggestion bundle: discount in [0,20], tax
rate in [0,25], a known documentation level and payment term, and a
non-empty note. -/
def goodBundle (b : Bundle) : Prop :=
  0 ≤ b.discount ∧ b.discount ≤ 20 ∧ 0 ≤ b.tax_rate ∧ b.tax_rate ≤ 25 ∧
  b.documentation_complexity ∈ docLevels ∧ b.payment_terms ∈ knownPaymentTerms ∧
  b.service_notes ≠ ""

namespace ITInvoicePredictor

/-- Cold-start runtime: no models loaded, the load attempt (and its retrain
fallback) failed; no artifact data is available. -/
def coldRuntime : Runtime :=
  { models_loaded := false
    load_ok := false
    prep_fails := false
    discount_model := fun _ => none
    tax_model := fun _ => none
    docs_model := fun _ => none
    encoders := { service_category := none, client_industry := none,
                  country := none, project_type := none } }

/-- Concrete input used by the witnesses. -/
def wInput : PredictInput :=
  { service_category := "Cloud Services", client_industry := "Finance", country := "US"
    project_type := "Fixed Price", total_amount := 25000, total_hours := 150
    num_services := 3 }

/-- Encoders fitted on nothing: every map is present but rejects every value. -/
def wEncoders : Encoders :=
  { service_category := some fun _ => none, client_industry := some fun _ => none
    country := some fun _ => none, project_type := some fun _ => none }

/-- A loaded runtime with constant estimators used by the witnesses: raw
discount 30 (above the 20 cap) and raw tax -3 (below the 0 floor). -/
def wRuntimeOk : Runtime :=
  { models_loaded := true
    load_ok := true
    prep_fails := false
    discount_model := fun _ => some 30
    tax_model := fun _ => some (-3)
    docs_model := fun _ => some 1
    encoders := wEncoders }

end ITInvoicePredictor

namespace ITInvoicePredictor

/-- A trained predictor state used by the C6 witness: same estimators as
`wRuntimeOk`. -/
def wPState : PredictorState :=
  { models_loaded := true
    discount_model := fun _ => some 30
    tax_model := fun _ => some (-3)
    docs_model := fun _ => some 1
    encoders := wEncoders }

/-- A fresh, untrained predictor state (the instance that performs the
load). -/
def wPState0 : PredictorState :=
  { models_loaded := false
    discount_model := fun _ => none
    tax_model := fun _ => none
    docs_model := fun _ => none
    encoders := { service_category := none, client_industry := none,
                  country := none, project_type := none } }

/-- An empty artifact store. -/
def wStore : ArtifactStore := fun _ => none

/-- Encoders fitted on one value per column; the first three maps know the
witness input's values (codes 1, 2, 3) but the project_type map was fitted
only on Retainer, so the witness's Fixed Price is unseen: the mixed case of
one unseen category among seen ones. -/
def wEncodersMixed : Encoders :=
  { service_category := some fun v => if v = "Cloud Services" then some 1 else none
    client_industry := some fun v => if v = "Finance" then some 2 else none
    country := some fun v => if v = "US" then some 3 else none
    project_type := some fun v => if v = "Retainer" then some 4 else none }

/-- The loaded witness runtime with the mixed encoders. -/
def wRuntimeMixed : Runtime := { wRuntimeOk with encoders := wEncodersMixed }

end ITInvoicePredictor

/-! ## Helper lemmas -/

theorem rhe_ge_floor (q : ℚ) : ⌊q⌋ ≤ rhe q := by
  unfold rhe
  split
  · exact le_refl _
  · split
    · linarith
    · split
      · exact le_refl _
      · linarith

theorem rhe_nonneg (q : ℚ) (h : 0 ≤ q) : 0 ≤ rhe q :=
  le_trans (Int.floor_nonneg.mpr h) (rhe_ge_floor q)

theorem rhe_le_of_le (q : ℚ) (b : ℤ) (h : q ≤ (b : ℚ)) : rhe q ≤ b := by
  have hfb : ⌊q⌋ ≤ b := by
    have h2 := Int.floor_le_floor h
    simpa using h2
  unfold rhe
  split
  · exact hfb
  · rename_i h1
    have hlt : ⌊q⌋ < b := by
      rcases lt_or_eq_of_le hfb with h2 | h2
      · exact h2
      · exfalso
        apply h1
        rw [h2]
        have h3 : q - (b : ℚ) ≤ 0 := by linarith
        have h4 : (⌊q⌋ : ℚ) = (b : ℚ) := by exact_mod_cast h2
        linarith
    split
    · linarith
    · split
      · linarith
      · linarith

theorem round2_bounds (q : ℚ) (b : ℤ) (h0 : 0 ≤ q) (hb : q ≤ (b : ℚ)) :
    0 ≤ round2 q ∧ round2 q ≤ (b : ℚ) := by
  have h1 : (0 : ℤ) ≤ rhe (q * 100) := rhe_nonneg _ (by positivity)
  have h2 : rhe (q * 100) ≤ 100 * b := by
    apply rhe_le_of_le
    push_cast
    linarith
  constructor
  · unfold round2
    have h3 : (0 : ℚ) ≤ (rhe (q * 100) : ℚ) := by exact_mod_cast h1
    positivity
  · unfold round2
    rw [div_le_iff₀ (by norm_num : (0:ℚ) < 100)]
    have h4 : ((rhe (q * 100) : ℤ) : ℚ) ≤ ((100 * b : ℤ) : ℚ) := by exact_mod_cast h2
    push_cast at h4
    linarith

theorem clampQ_mem (lo hi q : ℚ) (h : lo ≤ hi) :
    lo ≤ clampQ lo hi q ∧ clampQ lo hi q ≤ hi :=
  ⟨le_max_left _ _, max_le h (min_le_left _ _)⟩

theorem payment_terms_map_mem (pt : String) :
    ITInvoicePredictor.payment_terms_map pt ∈ knownPaymentTerms := by
  unfold ITInvoicePredictor.payment_terms_map
  split_ifs <;> simp [knownPaymentTerms]

theorem service_notes_map_ne (sc : String) :
    ITInvoicePredictor.service_notes_map sc ≠ "" := by
  unfold ITInvoicePredictor.service_notes_map
  split_ifs <;> decide

theorem smart_notes_ne (sc ci s : String) :
    ("Professional " ++ sc ++ " services for " ++ ci ++ " sector. Total project value: $" ++ s)
      ≠ "" := by
  intro h
  have h2 := congrArg String.data h
  simp at h2

theorem goodBundle_defaults (sc ci pt : String) (a : ℚ) :
    goodBundle (ITInvoicePredictor.get_smart_defaults sc ci pt a) := by
  unfold goodBundle ITInvoicePredictor.get_smart_defaults
  refine ⟨?_, ?_, by norm_num, by norm_num, ?_, payment_terms_map_mem pt, ?_⟩
  · show (0:ℚ) ≤ ITInvoicePredictor.smart_default_discount a
    unfold ITInvoicePredictor.smart_default_discount
    split_ifs <;> norm_num
  · show ITInvoicePredictor.smart_default_discount a ≤ 20
    unfold ITInvoicePredictor.smart_default_discount
    split_ifs <;> norm_num
  · show ITInvoicePredictor.smart_default_doc_complexity a ∈ docLevels
    unfold ITInvoicePredictor.smart_default_doc_complexity
    split_ifs <;> simp [docLevels]
  · exact smart_notes_ne sc ci _

theorem round2_clamp_bounds (hi : ℤ) (h : (0:ℚ) ≤ (hi:ℚ)) (x : ℚ) :
    0 ≤ round2 (clampQ 0 (hi:ℚ) x) ∧ round2 (clampQ 0 (hi:ℚ) x) ≤ (hi:ℚ) := by
  have h1 := clampQ_mem 0 (hi:ℚ) x h
  exact round2_bounds _ hi h1.1 h1.2

theorem goodBundle_predict (rt : ITInvoicePredictor.Runtime)
    (i : ITInvoicePredictor.PredictInput) :
    goodBundle (ITInvoicePredictor.predict rt i) := by
  unfold ITInvoicePredictor.predict
  split
  · exact goodBundle_defaults _ _ _ _
  · split
    · exact goodBundle_defaults _ _ _ _
    · split
      · simp only [goodBundle]
        refine ⟨?_, ?_, ?_, ?_, ?_, payment_terms_map_mem _, service_notes_map_ne _⟩
        · exact_mod_cast (round2_clamp_bounds 20 (by norm_num) _).1
        · exact_mod_cast (round2_clamp_bounds 20 (by norm_num) _).2
        · exact_mod_cast (round2_clamp_bounds 25 (by norm_num) _).1
        · exact_mod_cast (round2_clamp_bounds 25 (by norm_num) _).2
        · split_ifs <;> simp [docLevels]
      all_goals exact goodBundle_defaults _ _ _ _

/-! ## Claim theorems -/

/-- C1: `ITInvoicePredictor.predict` never lets an internal failure reach its
caller: whenever the artifact is unavailable and loading fails, or feature
preparation fails, or any of the three estimators raises, the call returns
exactly the rule-based `get_smart_defaults` bundle, the terminal state for
all such failures (`predict` is a total function of its runtime and input). -/
theorem C1_predict_failures_route_to_smart_defaults
    (rt : ITInvoicePredictor.Runtime) (i : ITInvoicePredictor.PredictInput)
    (h : (rt.models_loaded = false ∧ rt.load_ok = false) ∨ rt.prep_fails = true ∨
      rt.discount_model (ITInvoicePredictor.prepare_features_for_prediction rt.encoders i)
        = none ∨
      rt.tax_model (ITInvoicePredictor.prepare_features_for_prediction rt.encoders i)
        = none ∨
      rt.docs_model (ITInvoicePredictor.prepare_features_for_prediction rt.encoders i)
        = none) :
    ITInvoicePredictor.predict rt i =
      ITInvoicePredictor.get_smart_defaults i.service_category i.client_industry
        i.project_type i.total_amount := by
  unfold ITInvoicePredictor.predict
  split
  · rfl
  · rename_i hcond
    rcases h with ⟨h1, h2⟩ | h2 | h3 | h3 | h3
    · simp [h1, h2] at hcond
    · simp [h2]
    · cases hp : rt.prep_fails <;> simp [hp, h3]
    · cases hp : rt.prep_fails
      · cases hd : rt.discount_model
          (ITInvoicePredictor.prepare_features_for_prediction rt.encoders i) <;>
          simp [hp, hd, h3]
      · simp [hp]
    · cases hp : rt.prep_fails
      · cases hd : rt.discount_model
          (ITInvoicePredictor.prepare_features_for_prediction rt.encoders i)
        · simp [hp, hd]
        · cases ht : rt.tax_model
            (ITInvoicePredictor.prepare_features_for_prediction rt.encoders i) <;>
            simp [hp, hd, ht, h3]
      · simp [hp]

/-- Witness for C1: in the cold-start runtime (no models, load failed) the
call returns the smart defaults for its arguments. -/
theorem C1_witness :
    ITInvoicePredictor.predict ITInvoicePredictor.coldRuntime ITInvoicePredictor.wInput =
      ITInvoicePredictor.get_smart_defaults "Cloud Services" "Finance" "Fixed Price" 25000 :=
  C1_predict_failures_route_to_smart_defaults _ _ (Or.inl ⟨rfl, rfl⟩)

/-- C2: on every path, the bundle returned by `predict` has discount in
[0,20], tax rate in [0,25], a documentation level among Low/Medium/High, one
of the 4 known payment terms and a non-empty note; and on the inference path
the returned discount and tax rate are exactly the raw estimator outputs
clamped to [0,20] and [0,25] (then rounded to 2 decimals). -/
theorem C2_predict_bundle_in_range_and_clamped
    (rt : ITInvoicePredictor.Runtime) (i : ITInvoicePredictor.PredictInput) :
    goodBundle (ITInvoicePredictor.predict rt i) ∧
    (∀ (d t : ℚ) (f : ℤ), rt.prep_fails = false →
      (rt.models_loaded = true ∨ rt.load_ok = true) →
      rt.discount_model (ITInvoicePredictor.prepare_features_for_prediction rt.encoders i)
        = some d →
      rt.tax_model (ITInvoicePredictor.prepare_features_for_prediction rt.encoders i)
        = some t →
      rt.docs_model (ITInvoicePredictor.prepare_features_for_prediction rt.encoders i)
        = some f →
      (ITInvoicePredictor.predict rt i).discount = round2 (clampQ 0 20 d) ∧
      (ITInvoicePredictor.predict rt i).tax_rate = round2 (clampQ 0 25 t)) := by
  refine ⟨goodBundle_predict rt i, ?_⟩
  intro d t f hp hml hd ht hf
  have hcond : (!rt.models_loaded && !rt.load_ok) = false := by
    rcases hml with h | h <;> simp [h]
  unfold ITInvoicePredictor.predict
  simp [hcond, hp, hd, ht, hf]

/-- Witness for C2: a loaded runtime whose estimators return raw discount 30
and raw tax -3; the returned values are the clamped-and-rounded ones. -/
theorem C2_witness :
    goodBundle (ITInvoicePredictor.predict ITInvoicePredictor.wRuntimeOk
      ITInvoicePredictor.wInput) ∧
    (ITInvoicePredictor.predict ITInvoicePredictor.wRuntimeOk
      ITInvoicePredictor.wInput).discount = round2 (clampQ 0 20 30) ∧
    (ITInvoicePredictor.predict ITInvoicePredictor.wRuntimeOk
      ITInvoicePredictor.wInput).tax_rate = round2 (clampQ 0 25 (-3)) := by
  have h := C2_predict_bundle_in_range_and_clamped
    ITInvoicePredictor.wRuntimeOk ITInvoicePredictor.wInput
  exact ⟨h.1, (h.2 30 (-3) 1 rfl (Or.inl rfl) rfl rfl rfl).1,
    (h.2 30 (-3) 1 rfl (Or.inl rfl) rfl rfl rfl).2⟩

/-- C3: each categorical column is encoded independently: whenever a
column's fitted encoder map is present but does not contain the input's
value, that column of the prepared feature row is the fixed fallback code 0
(regardless of whether the other columns' values are seen or unseen),
feature preparation does not fail, and `predict` still returns a complete
in-range bundle. -/
theorem C3_unseen_category_encodes_zero
    (rt : ITInvoicePredictor.Runtime) (i : ITInvoicePredictor.PredictInput) :
    (∀ m, rt.encoders.service_category = some m → m i.service_category = none →
      (ITInvoicePredictor.prepare_features_for_prediction rt.encoders i).service_category
        = 0) ∧
    (∀ m, rt.encoders.client_industry = some m → m i.client_industry = none →
      (ITInvoicePredictor.prepare_features_for_prediction rt.encoders i).client_industry
        = 0) ∧
    (∀ m, rt.encoders.country = some m → m i.country = none →
      (ITInvoicePredictor.prepare_features_for_prediction rt.encoders i).country = 0) ∧
    (∀ m, rt.encoders.project_type = some m → m i.project_type = none →
      (ITInvoicePredictor.prepare_features_for_prediction rt.encoders i).project_type
        = 0) ∧
    goodBundle (ITInvoicePredictor.predict rt i) := by
  refine ⟨?_, ?_, ?_, ?_, goodBundle_predict rt i⟩ <;>
    intro m hm hv <;>
    simp [ITInvoicePredictor.prepare_features_for_prediction, ITInvoicePredictor.encodeCol,
      hm, hv]

/-- Witness for C3 at the mixed runtime: the project_type value Fixed Price
is absent from its fitted map (the other three columns' values are seen);
its column encodes to 0 and the prediction is a complete bundle. -/
theorem C3_witness :
    (ITInvoicePredictor.prepare_features_for_prediction
      ITInvoicePredictor.wRuntimeMixed.encoders
      ITInvoicePredictor.wInput).project_type = 0 ∧
    goodBundle (ITInvoicePredictor.predict ITInvoicePredictor.wRuntimeMixed
      ITInvoicePredictor.wInput) :=
  ⟨(C3_unseen_category_encodes_zero ITInvoicePredictor.wRuntimeMixed
      ITInvoicePredictor.wInput).2.2.2.1
      (fun v => if v = "Retainer" then some 4 else none) rfl rfl,
   (C3_unseen_category_encodes_zero ITInvoicePredictor.wRuntimeMixed
      ITInvoicePredictor.wInput).2.2.2.2⟩

/-- C4: with no model artifact and no dataset (cold start), `predict`
reproduces the two worked examples of the spec: amount 25000 / Finance /
Fixed Price gives discount 10, tax 8.5, High documentation and
half-in-advance terms; amount 3000 / Time & Materials gives discount 0,
tax 8.5, Low documentation and Net 30, regardless of the remaining inputs. -/
theorem C4_cold_start_worked_examples :
    (∀ (sc co : String) (ns : ℕ),
      (ITInvoicePredictor.predict ITInvoicePredictor.coldRuntime
        ⟨sc, "Finance", co, "Fixed Price", 25000, 150, ns⟩).discount = 10 ∧
      (ITInvoicePredictor.predict ITInvoicePredictor.coldRuntime
        ⟨sc, "Finance", co, "Fixed Price", 25000, 150, ns⟩).tax_rate = 8.5 ∧
      (ITInvoicePredictor.predict ITInvoicePredictor.coldRuntime
        ⟨sc, "Finance", co, "Fixed Price", 25000, 150, ns⟩).documentation_complexity
        = "High" ∧
      (ITInvoicePredictor.predict ITInvoicePredictor.coldRuntime
        ⟨sc, "Finance", co, "Fixed Price", 25000, 150, ns⟩).payment_terms
        = "50% Advance, 50% on Completion") ∧
    (∀ (sc ci co : String) (ns : ℕ),
      (ITInvoicePredictor.predict ITInvoicePredictor.coldRuntime
        ⟨sc, ci, co, "Time & Materials", 3000, 20, ns⟩).discount = 0 ∧
      (ITInvoicePredictor.predict ITInvoicePredictor.coldRuntime
        ⟨sc, ci, co, "Time & Materials", 3000, 20, ns⟩).tax_rate = 8.5 ∧
      (ITInvoicePredictor.predict ITInvoicePredictor.coldRuntime
        ⟨sc, ci, co, "Time & Materials", 3000, 20, ns⟩).documentation_complexity = "Low" ∧
      (ITInvoicePredictor.predict ITInvoicePredictor.coldRuntime
        ⟨sc, ci, co, "Time & Materials", 3000, 20, ns⟩).payment_terms = "Net 30") := by
  constructor
  · intro sc co ns
    refine ⟨?_, ?_, ?_, ?_⟩ <;>
      norm_num [ITInvoicePredictor.predict, ITInvoicePredictor.coldRuntime,
        ITInvoicePredictor.get_smart_defaults, ITInvoicePredictor.smart_default_discount,
        ITInvoicePredictor.smart_default_doc_complexity, ITInvoicePredictor.payment_terms_map]
  · intro sc ci co ns
    refine ⟨?_, ?_, ?_, ?_⟩ <;>
      norm_num [ITInvoicePredictor.predict, ITInvoicePredictor.coldRuntime,
        ITInvoicePredictor.get_smart_defaults, ITInvoicePredictor.smart_default_discount,
        ITInvoicePredictor.smart_default_doc_complexity,
        ITInvoicePredictor.payment_terms_map] <;>
      decide

/-- C5: the totals calculator implements the stated formula on every input
(subtotal, discount amount, tax on the discounted amount, grand total, total
hours), and on the spec's example it returns the stated numbers. -/
theorem C5_calculate_project_totals_formula :
    (∀ (services : List ProfessionalITInvoiceGenerator.Service) (discount tax_rate : ℚ),
      (ProfessionalITInvoiceGenerator.calculate_project_totals services discount
        tax_rate).subtotal = (services.map fun s => s.hours * s.hourly_rate).sum ∧
      (ProfessionalITInvoiceGenerator.calculate_project_totals services discount
        tax_rate).discount_amount =
        (services.map fun s => s.hours * s.hourly_rate).sum * (discount / 100) ∧
      (ProfessionalITInvoiceGenerator.calculate_project_totals services discount
        tax_rate).tax_amount =
        ((services.map fun s => s.hours * s.hourly_rate).sum -
         (services.map fun s => s.hours * s.hourly_rate).sum * (discount / 100)) *
          (tax_rate / 100) ∧
      (ProfessionalITInvoiceGenerator.calculate_project_totals services discount
        tax_rate).total =
        (ProfessionalITInvoiceGenerator.calculate_project_totals services discount
          tax_rate).subtotal -
        (ProfessionalITInvoiceGenerator.calculate_project_totals services discount
          tax_rate).discount_amount +
        (ProfessionalITInvoiceGenerator.calculate_project_totals services discount
          tax_rate).tax_amount ∧
      (ProfessionalITInvoiceGenerator.calculate_project_totals services discount
        tax_rate).total_hours =
        (services.map ProfessionalITInvoiceGenerator.Service.hours).sum) ∧
    (ProfessionalITInvoiceGenerator.calculate_project_totals
      [⟨10, 150⟩, ⟨5, 200⟩] 10 8.5 =
      { subtotal := 2500, discount_amount := 250, tax_amount := 191.25,
        total := 2441.25, total_hours := 15 }) := by
  constructor
  · intro services discount tax_rate
    exact ⟨rfl, rfl, rfl, rfl, rfl⟩
  · norm_num [ProfessionalITInvoiceGenerator.calculate_project_totals]

/-- C6: persistence round-trip: for a trained predictor, saving the artifact
and loading it back yields a predictor whose `predict` agrees with the
original on every runtime outcome and every input. -/
theorem C6_save_load_roundtrip
    (p p₀ : ITInvoicePredictor.PredictorState) (store : ITInvoicePredictor.ArtifactStore)
    (filename : String) (md : ITInvoicePredictor.ModelData)
    (hm : p.models_loaded = true)
    (hmd : ITInvoicePredictor.save_models p store filename filename = some md) :
    ∀ (load_ok prep_fails : Bool) (i : ITInvoicePredictor.PredictInput),
      ITInvoicePredictor.predict
        (ITInvoicePredictor.runtime (ITInvoicePredictor.load_models_from md p₀)
          load_ok prep_fails) i =
      ITInvoicePredictor.predict (ITInvoicePredictor.runtime p load_ok prep_fails) i := by
  intro load_ok prep_fails i
  have hmd2 : md = ⟨p.discount_model, p.tax_model, p.docs_model, p.encoders⟩ := by
    have h := hmd
    simp [ITInvoicePredictor.save_models] at h
    exact h.symm
  subst hmd2
  have heq : ITInvoicePredictor.runtime
      (ITInvoicePredictor.load_models_from
        ⟨p.discount_model, p.tax_model, p.docs_model, p.encoders⟩ p₀) load_ok prep_fails =
      ITInvoicePredictor.runtime p load_ok prep_fails := by
    simp [ITInvoicePredictor.runtime, ITInvoicePredictor.load_models_from, hm]
  rw [heq]

/-- C7: on the successful inference path the documentation complexity is
High exactly when the binary needs-detailed-docs output is set (non-zero)
and Medium otherwise; in particular the inference path never yields Low. -/
theorem C7_inference_doc_complexity
    (rt : ITInvoicePredictor.Runtime) (i : ITInvoicePredictor.PredictInput)
    (d t : ℚ) (f : ℤ)
    (hml : rt.models_loaded = true ∨ rt.load_ok = true)
    (hp : rt.prep_fails = false)
    (hd : rt.discount_model (ITInvoicePredictor.prepare_features_for_prediction rt.encoders i)
      = some d)
    (ht : rt.tax_model (ITInvoicePredictor.prepare_features_for_prediction rt.encoders i)
      = some t)
    (hf : rt.docs_model (ITInvoicePredictor.prepare_features_for_prediction rt.encoders i)
      = some f) :
    (ITInvoicePredictor.predict rt i).documentation_complexity
      = (if f ≠ 0 then "High" else "Medium") ∧
    (ITInvoicePredictor.predict rt i).documentation_complexity ≠ "Low" := by
  have hcond : (!rt.models_loaded && !rt.load_ok) = false := by
    rcases hml with h | h <;> simp [h]
  have h1 : (ITInvoicePredictor.predict rt i).documentation_complexity
      = (if f ≠ 0 then "High" else "Medium") := by
    unfold ITInvoicePredictor.predict
    simp [hcond, hp, hd, ht, hf]
  refine ⟨h1, ?_⟩
  rw [h1]
  split_ifs <;> decide

/-- Witness for C6: saving the trained witness predictor under the source's
default filename and loading it back into a fresh instance gives the same
prediction on the witness input. -/
theorem C6_witness :
    ITInvoicePredictor.predict
      (ITInvoicePredictor.runtime
        (ITInvoicePredictor.load_models_from
          ⟨fun _ => some 30, fun _ => some (-3), fun _ => some 1,
            ITInvoicePredictor.wEncoders⟩
          ITInvoicePredictor.wPState0) true false)
      ITInvoicePredictor.wInput =
    ITInvoicePredictor.predict
      (ITInvoicePredictor.runtime ITInvoicePredictor.wPState true false)
      ITInvoicePredictor.wInput :=
  C6_save_load_roundtrip ITInvoicePredictor.wPState ITInvoicePredictor.wPState0
    ITInvoicePredictor.wStore "it_invoice_models.joblib" _ rfl rfl true false
    ITInvoicePredictor.wInput

/-- Witness for C7: with the loaded witness runtime (docs flag 1) the
documentation complexity is High and is not Low. -/
theorem C7_witness :
    (ITInvoicePredictor.predict ITInvoicePredictor.wRuntimeOk
      ITInvoicePredictor.wInput).documentation_complexity
      = (if (1:ℤ) ≠ 0 then "High" else "Medium") ∧
    (ITInvoicePredictor.predict ITInvoicePredictor.wRuntimeOk
      ITInvoicePredictor.wInput).documentation_complexity ≠ "Low" :=
  C7_inference_doc_complexity ITInvoicePredictor.wRuntimeOk ITInvoicePredictor.wInput
    30 (-3) 1 (Or.inl rfl) rfl rfl rfl rfl

/-- C8 counterexample: the Dataset Synthesizer and the Prediction Service do
NOT share one payment-terms lookup: for the known project type Retainer the
synthesizer labels the record Net 30 while the service derives Monthly in
Advance. -/
theorem C8_counterexample_retainer_differs :
    "Retainer" ∈ knownProjectTypes ∧
    createItDataset.dataset_payment_terms "Retainer" ≠
      ITInvoicePredictor.payment_terms_map "Retainer" := by
  decide

/-- C8 (amended): the two lookups agree on Fixed Price and Time & Materials
only; they differ on Retainer (synthesizer Net 30, service Monthly in
Advance) and on Support Contract (synthesizer Monthly in Advance, service
Quarterly in Advance). -/
theorem C8_amended_lookups_agree_on_two_of_four :
    createItDataset.dataset_payment_terms "Fixed Price" =
      ITInvoicePredictor.payment_terms_map "Fixed Price" ∧
    createItDataset.dataset_payment_terms "Time & Materials" =
      ITInvoicePredictor.payment_terms_map "Time & Materials" ∧
    createItDataset.dataset_payment_terms "Retainer" = "Net 30" ∧
    ITInvoicePredictor.payment_terms_map "Retainer" = "Monthly in Advance" ∧
    createItDataset.dataset_payment_terms "Support Contract" = "Monthly in Advance" ∧
    ITInvoicePredictor.payment_terms_map "Support Contract" = "Quarterly in Advance" := by
  decide

/-- C9: both rule-based default discount functions are monotonically
non-decreasing in the total amount, and both return 0 for every amount at or
below their lowest threshold (5000). -/
theorem C9_default_discounts_monotone_and_zero_below
    (a b : ℚ) (hab : a ≤ b) :
    (SimpleInvoicePredictor.simple_default_discount a ≤
       SimpleInvoicePredictor.simple_default_discount b ∧
     ITInvoicePredictor.smart_default_discount a ≤
       ITInvoicePredictor.smart_default_discount b) ∧
    (a ≤ 5000 →
      SimpleInvoicePredictor.simple_default_discount a = 0 ∧
      ITInvoicePredictor.smart_default_discount a = 0) := by
  unfold SimpleInvoicePredictor.simple_default_discount
    ITInvoicePredictor.smart_default_discount
  refine ⟨⟨?_, ?_⟩, fun h5 => ⟨?_, ?_⟩⟩ <;> split_ifs <;> linarith

/-- Witness for C9 at amounts 3000 and 4000: monotone step and zero at or
below the lowest threshold. -/
theorem C9_witness :
    (SimpleInvoicePredictor.simple_default_discount 3000 ≤
       SimpleInvoicePredictor.simple_default_discount 4000 ∧
     ITInvoicePredictor.smart_default_discount 3000 ≤
       ITInvoicePredictor.smart_default_discount 4000) ∧
    (SimpleInvoicePredictor.simple_default_discount 3000 = 0 ∧
     ITInvoicePredictor.smart_default_discount 3000 = 0) :=
  ⟨(C9_default_discounts_monotone_and_zero_below 3000 4000 (by norm_num)).1,
   (C9_default_discounts_monotone_and_zero_below 3000 4000 (by norm_num)).2
     (by norm_num)⟩

/-- C10: the UI-facing predictor's bundle depends only on total amount,
project type and service category: two calls agreeing on those three return
identical bundles regardless of the models-loaded flag, client industry,
country, total hours and number of services. -/
theorem C10_ui_predictor_ignores_models_and_most_inputs
    (ml₁ ml₂ : Bool) (sc ci₁ ci₂ co₁ co₂ pt : String) (ta th₁ th₂ : ℚ)
    (ns₁ ns₂ : ℕ) :
    SimpleInvoicePredictor.predict ml₁ sc ci₁ co₁ pt ta th₁ ns₁ =
    SimpleInvoicePredictor.predict ml₂ sc ci₂ co₂ pt ta th₂ ns₂ := rfl
